import Mathlib

/-!
# Verification of the `sus` multiplayer synchronization core

A shallow embedding of the networking / prediction / reconciliation core of
the `sus` repository, together with proofs of the spec's testable properties.

Conventions of the embedding:
* `u16` values (sequence counters, player ids) are `Nat`, with range
  hypotheses (`< 65536`) added where a claim quantifies over 16-bit values.
  All subtractions in the source are guarded by strict comparisons, so Rust's
  `u16` subtraction agrees with truncated `Nat` subtraction in every branch.
* `i16` axis values are `Int`.
* `f32` positions are modelled as exact rationals (`Rat`): every claim proved
  here about positions is an equality between two runs of the *same* sequence
  of arithmetic operations, which holds for any deterministic arithmetic,
  in particular for IEEE-754 single precision as executed by the source.
* `VecDeque` buffers and Bevy query rosters are `List`s in iteration order;
  `push_back` is append, `pop_front` takes the head.
* `SocketAddr` is an opaque `Nat` key compared by equality, matching the
  source's use of address equality.
-/

namespace Sus

/-- `common/src/network.rs`: `PlayerInputPacket { counter: u16, x: i16, y: i16 }`. -/
structure PlayerInputPacket where
  counter : Nat
  x : Int
  y : Int
deriving DecidableEq, Repr

/-- `common/src/network.rs`: `let max_half = (u16::max_value() / 2) - 1;`. -/
def max_half : Nat := 65535 / 2 - 1

/-- `common/src/network.rs`, `impl SequenceCmp for u16`:
`((*self > other) && *self - other <= max_half) || ((other > *self) && other - *self > max_half)`. -/
def sequentially_greater_than (self other : Nat) : Bool :=
  (decide (other < self) && decide (self - other ≤ max_half))
    || (decide (self < other) && decide (max_half < other - self))

/-- `common/src/network.rs`: as `sequentially_greater_than` plus the equality case. -/
def sequentially_greater_than_or_equal_to (self other : Nat) : Bool :=
  decide (self = other)
    || (decide (other < self) && decide (self - other ≤ max_half))
    || (decide (self < other) && decide (max_half < other - self))

/-- `common/src/network.rs`:
`((*self < other) && other - *self <= max_half) || ((*self > other) && *self - other > max_half)`. -/
def sequentially_less_than (self other : Nat) : Bool :=
  (decide (self < other) && decide (other - self ≤ max_half))
    || (decide (other < self) && decide (max_half < self - other))

/-- `common/src/components/player.rs`, `UnprocessedInputs::clear_acknowledged_inputs`:
pop entries from the front of the queue while the front's counter is
sequentially less-than-or-equal-to `input_ack`. -/
def clear_acknowledged_inputs (input_ack : Nat) :
    List PlayerInputPacket → List PlayerInputPacket
  | [] => []
  | front :: rest =>
    if sequentially_greater_than_or_equal_to input_ack front.counter then
      clear_acknowledged_inputs input_ack rest
    else
      front :: rest

/-- The 30-entry queue built by the source's `test_clear`:
counters `0..30`, all axes zero. -/
def testQueue : List PlayerInputPacket :=
  (List.range 30).map (fun i => { counter := i, x := 0, y := 0 })

/-- `common/src/math.rs`, `impl NormalizedInt for i16`:
`if *self < 0 { -(*self as f32) / i16::MIN as f32 } else { *self as f32 / i16::MAX as f32 }`. -/
def normalized (v : Int) : Rat :=
  if v < 0 then -(v : Rat) / (-32768 : Rat) else (v : Rat) / 32767

/-- `server/src/systems/lobby.rs`, `update_lobby`'s integration step:
`let velocity = vec3(input.x.normalized(), input.y.normalized(), 0.0);`
`transform.translation += velocity * 0.1;` (componentwise on x and y; z stays 0). -/
def integrate (translation : Rat × Rat) (input : PlayerInputPacket) : Rat × Rat :=
  (translation.1 + normalized input.x * (1 / 10),
   translation.2 + normalized input.y * (1 / 10))

/-- `server/src/components/mod.rs`: `ServerPlayerBundle` — one player entity's
components. `PositionHistory` is the accumulated `(x, y)` samples pushed by
`update_lobby` since the last snapshot. -/
structure ServerPlayerBundle where
  id : Nat
  name : String
  network_addr : Nat
  unprocessed_inputs : List PlayerInputPacket
  position_history : List (Rat × Rat)
  last_input_counter : Nat
  transform : Rat × Rat
deriving DecidableEq, Repr

/-- `server/src/systems/lobby.rs`, the body of `update_lobby`'s per-player loop:
pop at most one input from the front of the queue; if its counter is
sequentially greater than `LastInputCounter`, record the counter, push the
pre-update position onto the history and integrate the input; a stale input
is dropped without touching the other components. -/
def update_player (p : ServerPlayerBundle) : ServerPlayerBundle :=
  match p.unprocessed_inputs with
  | [] => p
  | input :: rest =>
    if sequentially_greater_than input.counter p.last_input_counter then
      { p with
          unprocessed_inputs := rest,
          last_input_counter := input.counter,
          position_history := p.position_history ++ [p.transform],
          transform := integrate p.transform input }
    else
      { p with unprocessed_inputs := rest }

/-- `server/src/systems/lobby.rs`, `update_lobby`: the per-player step applied
to every player of the query, in roster order. -/
def update_lobby (players : List ServerPlayerBundle) : List ServerPlayerBundle :=
  players.map update_player

/-- `common/src/network.rs`: `ConnectAckPacket { id: u16 }`. -/
structure ConnectAckPacket where
  id : Nat
deriving DecidableEq, Repr

/-- `common/src/network.rs`: `NewPlayerPacket { name: String, id: u16 }`. -/
structure NewPlayerPacket where
  name : String
  id : Nat
deriving DecidableEq, Repr

/-- `common/src/network.rs`: `FullGameStatePacket { players: Vec<NewPlayerPacket> }`. -/
structure FullGameStatePacket where
  players : List NewPlayerPacket
deriving DecidableEq, Repr

/-- `LobbyPlayer` as constructed by `server/src/systems/lobby.rs`'s
`send_new_state`: `{ id, pos: (x, y), pos_history }`. -/
structure LobbyPlayer where
  id : Nat
  pos : Rat × Rat
  pos_history : List (Rat × Rat)
deriving DecidableEq, Repr

/-- `common/src/network.rs`: `LobbyTickPacket { last_input_counter: u16, players }`. -/
structure LobbyTickPacket where
  last_input_counter : Nat
  players : List LobbyPlayer
deriving DecidableEq, Repr

/-- `common/src/network.rs`: `ConnectPacket { version: u32, name: String }`. -/
structure ConnectPacket where
  version : Nat
  name : String
deriving DecidableEq, Repr

/-- `common/src/network.rs`: the server-to-client message catalog. -/
inductive ServerToClient where
  | ConnectAck (p : ConnectAckPacket)
  | NewPlayer (p : NewPlayerPacket)
  | FullGameState (p : FullGameStatePacket)
  | LobbyTick (p : LobbyTickPacket)
deriving DecidableEq, Repr

/-- `common/src/network.rs`: the client-to-server message catalog. -/
inductive ClientToServer where
  | Connect (p : ConnectPacket)
  | PlayerInput (p : PlayerInputPacket)
deriving DecidableEq, Repr

/-- `common/src/network.rs`: `DeliveryType`. -/
inductive DeliveryType where
  | ReliableOrdered
  | ReliableSequenced
  | ReliableUnordered
  | Unreliable
  | UnreliableSequenced
deriving DecidableEq, Repr

/-- `server/src/systems/network.rs`: `PacketDestination`. -/
inductive PacketDestination where
  | Single (addr : Nat)
  | BroadcastToAll
  | BroadcastToAllExcept (addr : Nat)
  | BroadcastToSet (addrs : List Nat)
deriving DecidableEq, Repr

/-- `server/src/events/mod.rs`: `OutgoingPacket { destination, packet, delivery_type, stream_id }`. -/
structure OutgoingPacket where
  destination : PacketDestination
  packet : ServerToClient
  delivery_type : DeliveryType
  stream_id : Option Nat
deriving DecidableEq, Repr

/-- `common/src/network.rs`: `GAME_STATE_STREAM`. -/
def GAME_STATE_STREAM : Nat := 1

/-- `common/src/network.rs`: `INPUT_STREAM`. -/
def INPUT_STREAM : Nat := 0

/-- `server/src/systems/lobby.rs`, `send_new_state`: build the roster snapshot
(`players_vec`, with each player's accumulated history) once; then, for each
player, clear that player's history and queue a `LobbyTick` carrying the
receiver's own `last_input_counter`, addressed to that player only. Returns
the updated roster and the queued outgoing packets in roster order. -/
def send_new_state (players : List ServerPlayerBundle) :
    List ServerPlayerBundle × List OutgoingPacket :=
  let players_vec : List LobbyPlayer := players.map (fun p =>
    { id := p.id, pos := p.transform, pos_history := p.position_history })
  (players.map (fun p => { p with position_history := [] }),
   players.map (fun p =>
     { destination := PacketDestination.Single p.network_addr,
       packet := ServerToClient.LobbyTick
         { last_input_counter := p.last_input_counter, players := players_vec },
       delivery_type := DeliveryType.UnreliableSequenced,
       stream_id := some GAME_STATE_STREAM }))

namespace Server

/-- `server/src/systems/network.rs`, `make_packet`: one transport packet, built
from the serialized payload, a destination address and the delivery class. -/
structure TransportPacket where
  addr : Nat
  payload : ServerToClient
  delivery_type : DeliveryType
deriving DecidableEq, Repr

/-- The destination resolution performed by the `match` in
`server/src/systems/network.rs`, `network_send`: `Single` sends to the one
address, `BroadcastToAll` to every roster address, `BroadcastToAllExcept`
filters the roster by address inequality, `BroadcastToSet` uses the given
set. -/
def resolve_destinations (roster : List Nat) : PacketDestination → List Nat
  | .Single addr => [addr]
  | .BroadcastToAll => roster
  | .BroadcastToAllExcept exclude_addr => roster.filter (fun addr => addr != exclude_addr)
  | .BroadcastToSet addrs => addrs

/-- `server/src/systems/network.rs`, `network_send` for one outgoing message:
the payload is serialized once and every resolved destination receives a
transport packet carrying that same payload. -/
def network_send (roster : List Nat) (outgoing : OutgoingPacket) : List TransportPacket :=
  (resolve_destinations roster outgoing.destination).map
    (fun addr =>
      { addr := addr, payload := outgoing.packet, delivery_type := outgoing.delivery_type })

/-- `laminar::SocketEvent` as consumed by `network_receive`. A `Packet` event
carries the decoded `ClientToServer` message when `bincode::deserialize`
succeeds, `none` when the payload is undecodable. `Connected` models
`SocketEvent::Connect` (a transport-level notification). -/
inductive SocketEvent where
  | Packet (addr : Nat) (payload : Option ClientToServer)
  | Timeout (addr : Nat)
  | Connected (addr : Nat)
  | Disconnect (addr : Nat)
deriving DecidableEq, Repr

/-- `server/src/events/mod.rs`: `NewPlayer { addr, connect_packet }`. -/
structure NewPlayerEvent where
  addr : Nat
  connect_packet : ConnectPacket
deriving DecidableEq, Repr

/-- `server/src/events/mod.rs`: `PlayerInput { id, input }`. -/
structure PlayerInputEvent where
  id : Nat
  input : PlayerInputPacket
deriving DecidableEq, Repr

/-- The state mutated by `network_receive`: the `AddrToPlayer` map (an
association list in insertion order) and the two event queues it writes. -/
structure ReceiveState where
  players : List (Nat × Nat)
  new_players : List NewPlayerEvent
  inputs : List PlayerInputEvent
deriving DecidableEq, Repr

/-- `HashMap::get` on the address map. -/
def lookup_addr (m : List (Nat × Nat)) (addr : Nat) : Option Nat :=
  (m.find? (fun e => e.1 == addr)).map (fun e => e.2)

/-- `HashMap::remove` on the address map. -/
def remove_addr (m : List (Nat × Nat)) (addr : Nat) : List (Nat × Nat) :=
  m.filter (fun e => e.1 != addr)

/-- The `match event` body of `server/src/systems/network.rs`,
`network_receive`, for one socket event: a decoded `Connect` emits a
`NewPlayer` event; a decoded `PlayerInput` from a known address emits a
`PlayerInput` event; invalid packets, timeouts and connect notifications are
only logged; a disconnect removes the address from the map. -/
def process_event (st : ReceiveState) : SocketEvent → ReceiveState
  | .Packet addr (some (ClientToServer.Connect cp)) =>
    { st with new_players := st.new_players ++ [{ addr := addr, connect_packet := cp }] }
  | .Packet addr (some (ClientToServer.PlayerInput ip)) =>
    match lookup_addr st.players addr with
    | some id => { st with inputs := st.inputs ++ [{ id := id, input := ip }] }
    | none => st
  | .Packet _ none => st
  | .Timeout _ => st
  | .Connected _ => st
  | .Disconnect addr => { st with players := remove_addr st.players addr }

/-- `server/src/systems/network.rs`, `network_receive`:
`while let Ok(event) = net_rx.try_recv() { ... }` — take the next already
queued event until `try_recv` fails, which happens exactly when the queue is
empty; each taken event is processed in arrival order. Returns the final
state together with whatever the loop left in the queue on exit. -/
def network_receive (st : ReceiveState) :
    List SocketEvent → ReceiveState × List SocketEvent
  | [] => (st, [])
  | event :: rest => network_receive (process_event st event) rest

/-- The server-side session state touched by
`server/src/systems/lobby.rs`, `new_player_joined`: the spawned player
entities in spawn order, the `AddrToPlayer` and `PlayerToEntity` lookup
tables (association lists; the opaque Bevy `Entity` handle is abstracted as
the player id it was spawned for) and the `PlayerIdCounter`. -/
structure LobbyState where
  players : List ServerPlayerBundle
  addr_to_player : List (Nat × Nat)
  player_to_entity : List (Nat × Nat)
  player_id_counter : Nat
deriving DecidableEq, Repr

/-- The `ServerPlayerBundle` spawned by `new_player_joined`: empty input
queue and history, `LastInputCounter(0)`, transform at the origin. -/
def spawn_bundle (id : Nat) (name : String) (addr : Nat) : ServerPlayerBundle :=
  { id := id, name := name, network_addr := addr,
    unprocessed_inputs := [], position_history := [],
    last_input_counter := 0, transform := (0, 0) }

/-- The loop body of `server/src/systems/lobby.rs`, `new_player_joined`, for
one drained `NewPlayer` event: allocate the next id from the counter, spawn
the bundle, insert both lookup entries, and queue `ConnectAck` and
`FullGameState` to the new peer and `NewPlayer` to everyone else. `existing`
is the roster seen by the `existing_players` query — spawns issued through
`Commands` during the same drain are deferred and not yet visible to it. -/
def handle_connect (existing : List ServerPlayerBundle) (st : LobbyState)
    (ev : NewPlayerEvent) : LobbyState × List OutgoingPacket :=
  let new_player_id := st.player_id_counter
  ({ players := st.players ++ [spawn_bundle new_player_id ev.connect_packet.name ev.addr],
     addr_to_player := st.addr_to_player ++ [(ev.addr, new_player_id)],
     player_to_entity := st.player_to_entity ++ [(new_player_id, new_player_id)],
     player_id_counter := st.player_id_counter + 1 },
   [{ destination := PacketDestination.Single ev.addr,
      packet := ServerToClient.ConnectAck { id := new_player_id },
      delivery_type := DeliveryType.ReliableOrdered,
      stream_id := some GAME_STATE_STREAM },
    { destination := PacketDestination.Single ev.addr,
      packet := ServerToClient.FullGameState
        { players := existing.map (fun p => { name := p.name, id := p.id }) },
      delivery_type := DeliveryType.ReliableOrdered,
      stream_id := some GAME_STATE_STREAM },
    { destination := PacketDestination.BroadcastToAllExcept ev.addr,
      packet := ServerToClient.NewPlayer { name := ev.connect_packet.name, id := new_player_id },
      delivery_type := DeliveryType.ReliableOrdered,
      stream_id := some GAME_STATE_STREAM }])

/-- `server/src/systems/lobby.rs`, `new_player_joined`: drain every queued
`NewPlayer` event, applying `handle_connect` to each in order; the
`existing_players` query is fixed at entry. No capacity or
duplicate-address check appears anywhere on this path. -/
def new_player_joined (st : LobbyState) (events : List NewPlayerEvent) :
    LobbyState × List OutgoingPacket :=
  let existing := st.players
  events.foldl (fun acc ev =>
    let r := handle_connect existing acc.1 ev
    (r.1, acc.2 ++ r.2)) (st, [])

/-- A full 16-player lobby whose addresses are `100..116`, used to exhibit
that `new_player_joined` accepts connects regardless of capacity or of the
sender's address being registered already. -/
def fullLobby : LobbyState :=
  { players := (List.range 16).map (fun i => spawn_bundle i "p" (100 + i)),
    addr_to_player := (List.range 16).map (fun i => (100 + i, i)),
    player_to_entity := (List.range 16).map (fun i => (i, i)),
    player_id_counter := 16 }

/-- The empty lobby a fresh server starts from. -/
def lobby0 : LobbyState :=
  { players := [], addr_to_player := [], player_to_entity := [], player_id_counter := 0 }

/-- The first client's connect: game version 0, name "Brian", from address 7. -/
def brianConnect : NewPlayerEvent :=
  { addr := 7, connect_packet := { version := 0, name := "Brian" } }

/-- The second client's connect: game version 0, name "Carl", from address 9. -/
def carlConnect : NewPlayerEvent :=
  { addr := 9, connect_packet := { version := 0, name := "Carl" } }

/-- Lobby state after the tick that processes Brian's connect. -/
def lobby1 : LobbyState := (new_player_joined lobby0 [brianConnect]).1

/-- Packets queued by the tick that processes Brian's connect. -/
def tick1Packets : List OutgoingPacket := (new_player_joined lobby0 [brianConnect]).2

/-- Lobby state after the later tick that processes Carl's connect. -/
def lobby2 : LobbyState := (new_player_joined lobby1 [carlConnect]).1

/-- Packets queued by the tick that processes Carl's connect. -/
def tick2Packets : List OutgoingPacket := (new_player_joined lobby1 [carlConnect]).2

end Server

namespace Client

/-- `client/src/events/mod.rs`: `OutgoingPacket { packet, delivery_type, stream_id }`. -/
structure OutgoingPacket where
  packet : ClientToServer
  delivery_type : DeliveryType
  stream_id : Option Nat
deriving DecidableEq, Repr

/-- `common/src/network.rs`, `make_packet` on the client side: a transport
packet addressed to the server, tagged with delivery class and stream. -/
structure TransportPacket where
  addr : Nat
  payload : ClientToServer
  delivery_type : DeliveryType
  stream : Option Nat
deriving DecidableEq, Repr

/-- `matches!(outgoing.packet, ClientToServer::PlayerInput(_))` from
`client/src/systems/network.rs`, `network_send`. -/
def is_player_input : ClientToServer → Bool
  | .PlayerInput _ => true
  | _ => false

/-- `client/src/systems/network.rs`, `network_send`: drain the outgoing queue;
while not connected, `PlayerInput` messages are skipped (`continue`); every
other message is serialized and sent to the server address. -/
def network_send (server_addr : Nat) (connected : Bool) :
    List OutgoingPacket → List TransportPacket
  | [] => []
  | outgoing :: rest =>
    if !connected && is_player_input outgoing.packet then
      network_send server_addr connected rest
    else
      { addr := server_addr, payload := outgoing.packet,
        delivery_type := outgoing.delivery_type, stream := outgoing.stream_id }
        :: network_send server_addr connected rest

/-- The client-side state reconciliation acts on: the local player's id
(`MyPlayerId` once the `ConnectAck` arrived), the displayed position of every
known player, and the local `UnprocessedInputs` queue of sent-but-unacked
inputs. -/
structure ClientState where
  my_id : Nat
  players : List (Nat × (Rat × Rat))
  unprocessed_inputs : List PlayerInputPacket
deriving DecidableEq, Repr

/-- Prediction/replay: integrate pending inputs in order into a position
with the same per-tick step the server uses (`integrate`). -/
def replay (pos : Rat × Rat) (inputs : List PlayerInputPacket) : Rat × Rat :=
  inputs.foldl integrate pos

/-- Set the displayed position of player `pid`. -/
def set_position (players : List (Nat × (Rat × Rat))) (pid : Nat) (pos : Rat × Rat) :
    List (Nat × (Rat × Rat)) :=
  players.map (fun q => if q.1 = pid then (q.1, pos) else q)

/-- Look up the displayed position of player `pid`. -/
def lookup_position (players : List (Nat × (Rat × Rat))) (pid : Nat) : Option (Rat × Rat) :=
  (players.find? (fun q => q.1 == pid)).map (fun q => q.2)

/-- Modelled from the spec: the current client's `LobbyTick` reconciliation
handler (`handle_lobby_tick`) is missing from the sources (only the legacy
pre-reconciliation client `main.rs` is present, which overwrites every
position directly). Per the spec: (1) trim the local `UnprocessedInputs`
queue with the snapshot's `last_applied_input_counter` (the source's
`clear_acknowledged_inputs`); (2) set every remote player's displayed
position directly from the snapshot; (3) set the local player's position to
the snapshot's authoritative value and replay every remaining queued input
with the same integration step as prediction. -/
def handle_lobby_tick (st : ClientState) (tick : LobbyTickPacket) : ClientState :=
  let trimmed := clear_acknowledged_inputs tick.last_input_counter st.unprocessed_inputs
  { st with
      unprocessed_inputs := trimmed,
      players := tick.players.foldl
        (fun acc sp =>
          set_position acc sp.id
            (if sp.id = st.my_id then replay sp.pos trimmed else sp.pos))
        st.players }

end Client

/-- A one-player roster whose front input is stale (counter 5 = the already
applied `LastInputCounter`), used to witness stale-input rejection. -/
def stalePlayer : ServerPlayerBundle :=
  { id := 0, name := "A", network_addr := 1,
    unprocessed_inputs := [{ counter := 5, x := 3, y := 4 }],
    position_history := [], last_input_counter := 5, transform := (0, 0) }

end Sus

namespace Sus

/-- C1: over the 16-bit value space, `sequentially_greater_than`, equality and
`sequentially_less_than` are mutually exclusive and exhaustive,
`sequentially_greater_than a b` coincides with `sequentially_less_than b a`,
and the spec's three concrete comparisons hold. -/
theorem sequence_cmp_trichotomy (a b : Nat) (ha : a < 65536) (hb : b < 65536) :
    (sequentially_greater_than a b = true ∨ a = b ∨ sequentially_less_than a b = true)
      ∧ ¬(sequentially_greater_than a b = true ∧ a = b)
      ∧ ¬(sequentially_greater_than a b = true ∧ sequentially_less_than a b = true)
      ∧ ¬(a = b ∧ sequentially_less_than a b = true)
      ∧ sequentially_greater_than a b = sequentially_less_than b a
      ∧ sequentially_greater_than_or_equal_to 0 65535 = true
      ∧ sequentially_greater_than 100 90 = true
      ∧ sequentially_greater_than 10 60000 = true := by
  refine ⟨?_, ?_, ?_, ?_, ?_, by decide, by decide, by decide⟩
  · simp only [sequentially_greater_than, sequentially_less_than, max_half,
      Bool.or_eq_true, Bool.and_eq_true, decide_eq_true_eq]
    omega
  · simp only [sequentially_greater_than, max_half,
      Bool.or_eq_true, Bool.and_eq_true, decide_eq_true_eq, not_and]
    omega
  · simp only [sequentially_greater_than, sequentially_less_than, max_half,
      Bool.or_eq_true, Bool.and_eq_true, decide_eq_true_eq, not_and]
    omega
  · simp only [sequentially_less_than, max_half,
      Bool.or_eq_true, Bool.and_eq_true, decide_eq_true_eq, not_and]
    omega
  · rfl

/-- Witness for C1 at `a = 100`, `b = 90`. -/
theorem sequence_cmp_trichotomy_witness :
    (100 < 65536 ∧ 90 < 65536)
      ∧ ((sequentially_greater_than 100 90 = true ∨ 100 = 90
            ∨ sequentially_less_than 100 90 = true)
          ∧ ¬(sequentially_greater_than 100 90 = true ∧ 100 = 90)
          ∧ ¬(sequentially_greater_than 100 90 = true
                ∧ sequentially_less_than 100 90 = true)
          ∧ ¬(100 = 90 ∧ sequentially_less_than 100 90 = true)
          ∧ sequentially_greater_than 100 90 = sequentially_less_than 90 100
          ∧ sequentially_greater_than_or_equal_to 0 65535 = true
          ∧ sequentially_greater_than 100 90 = true
          ∧ sequentially_greater_than 10 60000 = true) :=
  ⟨⟨by decide, by decide⟩, sequence_cmp_trichotomy 100 90 (by decide) (by decide)⟩

/-- C7: the trimming sequence of the source's `test_clear` on the 30-entry
queue with counters `0..30`: ack `u16::MAX` removes nothing, ack `0` removes
one entry, ack `10` then leaves the entries with counters `11..30`,
ack `40` empties the queue, and ack `200` on the empty queue is a no-op. -/
theorem clear_acknowledged_inputs_test_sequence :
    clear_acknowledged_inputs 65535 testQueue = testQueue
      ∧ (clear_acknowledged_inputs 0 (clear_acknowledged_inputs 65535 testQueue)).length = 29
      ∧ clear_acknowledged_inputs 10
          (clear_acknowledged_inputs 0 (clear_acknowledged_inputs 65535 testQueue))
          = (List.range' 11 19).map (fun i => { counter := i, x := 0, y := 0 })
      ∧ clear_acknowledged_inputs 40
          (clear_acknowledged_inputs 10
            (clear_acknowledged_inputs 0 (clear_acknowledged_inputs 65535 testQueue))) = []
      ∧ clear_acknowledged_inputs 200 ([] : List PlayerInputPacket) = [] := by
  refine ⟨by decide, by decide, by decide, by decide, by decide⟩

/-- If `a` is sequentially greater-than-or-equal-to `b`, then `b` is not
sequentially greater than `a`. Holds without range hypotheses. -/
theorem seq_gt_eq_false_of_gte (a b : Nat)
    (h : sequentially_greater_than_or_equal_to a b = true) :
    sequentially_greater_than b a = false := by
  apply Bool.eq_false_iff.mpr
  intro hcontra
  simp only [sequentially_greater_than_or_equal_to, sequentially_greater_than, max_half,
    Bool.or_eq_true, Bool.and_eq_true, decide_eq_true_eq] at h hcontra
  omega

/-- C3: if the input at the front of a player's queue has a counter `C` with
`LastInputCounter` sequentially greater-than-or-equal-to `C`, then the
server's per-tick `update_lobby` leaves that player's position and
`LastInputCounter` unchanged. -/
theorem stale_input_rejected (players : List ServerPlayerBundle)
    (i : Nat) (hi : i < players.length)
    (hlen : i < (update_lobby players).length)
    (input : PlayerInputPacket) (rest : List PlayerInputPacket)
    (hq : (players.get ⟨i, hi⟩).unprocessed_inputs = input :: rest)
    (hstale : sequentially_greater_than_or_equal_to
        (players.get ⟨i, hi⟩).last_input_counter input.counter = true) :
    ((update_lobby players).get ⟨i, hlen⟩).transform = (players.get ⟨i, hi⟩).transform
      ∧ ((update_lobby players).get ⟨i, hlen⟩).last_input_counter
          = (players.get ⟨i, hi⟩).last_input_counter := by
  have hmap : (update_lobby players).get ⟨i, hlen⟩
      = update_player (players.get ⟨i, hi⟩) := by
    simp [update_lobby, List.get_eq_getElem, List.getElem_map]
  have hgt : sequentially_greater_than input.counter
      (players.get ⟨i, hi⟩).last_input_counter = false :=
    seq_gt_eq_false_of_gte _ _ hstale
  rw [hmap]
  unfold update_player
  rw [hq]
  simp only [List.get_eq_getElem] at hgt
  simp [hgt]

/-- Witness for C3: a one-player roster whose front input carries the already
acknowledged counter 5; the tick changes neither position nor counter. -/
theorem stale_input_rejected_witness :
    (stalePlayer.unprocessed_inputs
        = ({ counter := 5, x := 3, y := 4 } : PlayerInputPacket) :: []
      ∧ sequentially_greater_than_or_equal_to stalePlayer.last_input_counter 5 = true)
      ∧ (((update_lobby [stalePlayer]).get ⟨0, by decide⟩).transform
            = stalePlayer.transform
          ∧ ((update_lobby [stalePlayer]).get ⟨0, by decide⟩).last_input_counter
            = stalePlayer.last_input_counter) :=
  ⟨⟨by decide, by decide⟩,
    stale_input_rejected [stalePlayer] 0 (by decide) (by decide)
      { counter := 5, x := 3, y := 4 } [] (by decide) (by decide)⟩

/-- C4: one `LobbyTick` per connected player, each carrying the receiver's own
`last_applied_input_counter` and the full roster (current positions plus the
accumulated, pre-clearing position histories), each addressed `Single` to its
receiver (never a broadcast), and every player's history is cleared in the
updated state, all other components untouched. -/
theorem lobby_snapshot_per_player (players : List ServerPlayerBundle)
    (i : Nat) (hi : i < players.length)
    (hp : i < (send_new_state players).2.length)
    (hs : i < (send_new_state players).1.length) :
    (send_new_state players).2.length = players.length
      ∧ ((send_new_state players).2.get ⟨i, hp⟩).destination
          = PacketDestination.Single (players.get ⟨i, hi⟩).network_addr
      ∧ ((send_new_state players).2.get ⟨i, hp⟩).packet
          = ServerToClient.LobbyTick
              { last_input_counter := (players.get ⟨i, hi⟩).last_input_counter,
                players := players.map (fun p =>
                  { id := p.id, pos := p.transform, pos_history := p.position_history }) }
      ∧ (send_new_state players).1.get ⟨i, hs⟩
          = { players.get ⟨i, hi⟩ with position_history := [] }
      ∧ (∀ pkt ∈ (send_new_state players).2,
          ∃ a, pkt.destination = PacketDestination.Single a) := by
  refine ⟨by simp [send_new_state], ?_, ?_, ?_, ?_⟩
  · simp [send_new_state, List.get_eq_getElem, List.getElem_map]
  · simp [send_new_state, List.get_eq_getElem, List.getElem_map]
  · simp [send_new_state, List.get_eq_getElem, List.getElem_map]
  · intro pkt hpkt
    simp only [send_new_state, List.mem_map] at hpkt
    obtain ⟨p, _, rfl⟩ := hpkt
    exact ⟨p.network_addr, rfl⟩

/-- Witness for C4 on a concrete two-player roster at index 0. -/
theorem lobby_snapshot_per_player_witness :
    ((0 : Nat) < [stalePlayer, { stalePlayer with id := 1, network_addr := 2 }].length)
      ∧ ((send_new_state [stalePlayer, { stalePlayer with id := 1, network_addr := 2 }]).2.length
            = 2
          ∧ ((send_new_state
                [stalePlayer, { stalePlayer with id := 1, network_addr := 2 }]).2.get
                ⟨0, by decide⟩).destination
            = PacketDestination.Single stalePlayer.network_addr) := by
  have h := lobby_snapshot_per_player
    [stalePlayer, { stalePlayer with id := 1, network_addr := 2 }]
    0 (by decide) (by decide) (by decide)
  exact ⟨by decide, h.1, h.2.1⟩

/-- Filtering a roster by inequality with `x` drops exactly the occurrences
of `x`. -/
theorem length_filter_ne (l : List Nat) (x : Nat) :
    (l.filter (fun a => a != x)).length = l.length - l.count x := by
  induction l with
  | nil => simp
  | cons a t ih =>
    by_cases h : a = x
    · subst h
      simp [List.count_cons, ih]
    · have hle := List.count_le_length x t
      simp [List.count_cons, h, ih, Ne.symm h]
      omega

/-- C8: dispatching an outgoing message with destination
`BroadcastToAllExcept x` over a roster containing `x` exactly once produces
exactly `roster.length - 1` transport sends, none addressed to `x`, all
carrying the one serialized payload; exclusion is by address equality. -/
theorem broadcast_to_all_except_fanout (roster : List Nat) (x : Nat)
    (hx : roster.count x = 1)
    (pkt : ServerToClient) (d : DeliveryType) (s : Option Nat) :
    (Server.network_send roster
        { destination := PacketDestination.BroadcastToAllExcept x,
          packet := pkt, delivery_type := d, stream_id := s }).length
        = roster.length - 1
      ∧ ∀ t ∈ Server.network_send roster
          { destination := PacketDestination.BroadcastToAllExcept x,
            packet := pkt, delivery_type := d, stream_id := s },
          t.addr ≠ x ∧ t.payload = pkt := by
  constructor
  · simp only [Server.network_send, Server.resolve_destinations, List.length_map]
    rw [length_filter_ne, hx]
  · intro t ht
    simp only [Server.network_send, Server.resolve_destinations, List.mem_map,
      List.mem_filter, bne_iff_ne, ne_eq] at ht
    obtain ⟨a, ⟨_, hne⟩, rfl⟩ := ht
    exact ⟨hne, rfl⟩

/-- Witness for C8: roster `[1, 2, 3]`, excluded address `2`. -/
theorem broadcast_to_all_except_fanout_witness :
    ([1, 2, 3] : List Nat).count 2 = 1
      ∧ ((Server.network_send [1, 2, 3]
            { destination := PacketDestination.BroadcastToAllExcept 2,
              packet := ServerToClient.ConnectAck { id := 0 },
              delivery_type := DeliveryType.ReliableOrdered,
              stream_id := some GAME_STATE_STREAM }).length
          = ([1, 2, 3] : List Nat).length - 1
        ∧ ∀ t ∈ Server.network_send [1, 2, 3]
            { destination := PacketDestination.BroadcastToAllExcept 2,
              packet := ServerToClient.ConnectAck { id := 0 },
              delivery_type := DeliveryType.ReliableOrdered,
              stream_id := some GAME_STATE_STREAM },
            t.addr ≠ 2 ∧ t.payload = ServerToClient.ConnectAck { id := 0 }) :=
  ⟨by decide,
    broadcast_to_all_except_fanout [1, 2, 3] 2 (by decide)
      (ServerToClient.ConnectAck { id := 0 }) DeliveryType.ReliableOrdered
      (some GAME_STATE_STREAM)⟩

/-- C10: the client's outbound step sends every drained message when the
connected flag is set; when it is not set, exactly the `PlayerInput` messages
are discarded and every other kind is still sent. -/
theorem player_input_send_gated (server_addr : Nat) (queue : List Client.OutgoingPacket) :
    Client.network_send server_addr true queue
        = queue.map (fun o =>
            { addr := server_addr, payload := o.packet,
              delivery_type := o.delivery_type, stream := o.stream_id })
      ∧ Client.network_send server_addr false queue
        = (queue.filter (fun o => !Client.is_player_input o.packet)).map (fun o =>
            { addr := server_addr, payload := o.packet,
              delivery_type := o.delivery_type, stream := o.stream_id }) := by
  constructor
  · induction queue with
    | nil => rfl
    | cons o rest ih => simp [Client.network_send, ih]
  · induction queue with
    | nil => rfl
    | cons o rest ih =>
      cases hpi : Client.is_player_input o.packet <;>
        simp [Client.network_send, hpi, ih, List.filter_cons]

/-- C9: the per-tick receive step consumes every event queued when it starts
(nothing remains), its result is exactly the in-order processing of those
already queued events, and on an empty queue it returns at once without
waiting — it is a total function of the events present, never a blocking
receive. -/
theorem receive_drains_inbound_queue (st : Server.ReceiveState)
    (queue : List Server.SocketEvent) :
    (Server.network_receive st queue).2 = []
      ∧ (Server.network_receive st queue).1 = queue.foldl Server.process_event st
      ∧ Server.network_receive st [] = (st, []) := by
  induction queue generalizing st with
  | nil => exact ⟨rfl, rfl, rfl⟩
  | cons e rest ih =>
    refine ⟨(ih (Server.process_event st e)).1, ?_, rfl⟩
    simpa [Server.network_receive, List.foldl] using (ih (Server.process_event st e)).2.1

/-- C5 counterexample: with the lobby already holding 16 players (the
configured maximum of the legacy server) and address 100 already registered
(mapped to player 0), `new_player_joined` still accepts the connect: it
allocates id 16, grows the roster to 17, registers the address a second time
and replies to the peer — the first queued packet is a `ConnectAck` addressed
to the sender. This refutes both stated acceptance conditions and the
drop-without-reply behavior at capacity. -/
theorem connect_accepted_at_capacity :
    Server.fullLobby.players.length = 16
      ∧ Server.lookup_addr Server.fullLobby.addr_to_player 100 = some 0
      ∧ (Server.new_player_joined Server.fullLobby
          [{ addr := 100, connect_packet := { version := 0, name := "Dup" } }]).1.players.length
          = 17
      ∧ (Server.new_player_joined Server.fullLobby
          [{ addr := 100, connect_packet := { version := 0, name := "Dup" } }]).2.head?
          = some
            { destination := PacketDestination.Single 100,
              packet := ServerToClient.ConnectAck { id := 16 },
              delivery_type := DeliveryType.ReliableOrdered,
              stream_id := some GAME_STATE_STREAM } := by
  refine ⟨by decide, by decide, by decide, by decide⟩

/-- C5 (amended): `new_player_joined` accepts every Connect event
unconditionally — no registered-address or capacity check exists. It
allocates the next `PlayerId` from the incrementing counter (ids stay fresh:
the counter strictly dominates every existing id, so ids are never reused),
inserts the address-to-player and player-to-entity entries, and queues
`ConnectAck` and `FullGameState` (built from the pre-existing roster) to the
new peer only, and `NewPlayer` to everyone except the new peer. -/
theorem new_player_joined_accepts (st : Server.LobbyState) (ev : Server.NewPlayerEvent)
    (hfresh : ∀ p ∈ st.players, p.id < st.player_id_counter) :
    (Server.new_player_joined st [ev]).1.player_id_counter = st.player_id_counter + 1
      ∧ (Server.new_player_joined st [ev]).1.players
          = st.players
              ++ [Server.spawn_bundle st.player_id_counter ev.connect_packet.name ev.addr]
      ∧ (Server.new_player_joined st [ev]).1.addr_to_player
          = st.addr_to_player ++ [(ev.addr, st.player_id_counter)]
      ∧ (Server.new_player_joined st [ev]).1.player_to_entity
          = st.player_to_entity ++ [(st.player_id_counter, st.player_id_counter)]
      ∧ (Server.new_player_joined st [ev]).2
          = [{ destination := PacketDestination.Single ev.addr,
               packet := ServerToClient.ConnectAck { id := st.player_id_counter },
               delivery_type := DeliveryType.ReliableOrdered,
               stream_id := some GAME_STATE_STREAM },
             { destination := PacketDestination.Single ev.addr,
               packet := ServerToClient.FullGameState
                 { players := st.players.map (fun p => { name := p.name, id := p.id }) },
               delivery_type := DeliveryType.ReliableOrdered,
               stream_id := some GAME_STATE_STREAM },
             { destination := PacketDestination.BroadcastToAllExcept ev.addr,
               packet := ServerToClient.NewPlayer
                 { name := ev.connect_packet.name, id := st.player_id_counter },
               delivery_type := DeliveryType.ReliableOrdered,
               stream_id := some GAME_STATE_STREAM }]
      ∧ ∀ p ∈ (Server.new_player_joined st [ev]).1.players,
          p.id < (Server.new_player_joined st [ev]).1.player_id_counter := by
  refine ⟨rfl, rfl, rfl, rfl, rfl, ?_⟩
  intro p hp
  simp only [Server.new_player_joined, Server.handle_connect, List.foldl,
    List.mem_append, List.mem_singleton] at hp ⊢
  rcases hp with hp | rfl
  · exact Nat.lt_succ_of_lt (hfresh p hp)
  · exact Nat.lt_succ_self _

/-- Witness for the amended C5 at the empty lobby and Brian's connect. -/
theorem new_player_joined_accepts_witness :
    (∀ p ∈ Server.lobby0.players, p.id < Server.lobby0.player_id_counter)
      ∧ (Server.new_player_joined Server.lobby0 [Server.brianConnect]).1.player_id_counter
          = Server.lobby0.player_id_counter + 1
      ∧ ∀ p ∈ (Server.new_player_joined Server.lobby0 [Server.brianConnect]).1.players,
          p.id
            < (Server.new_player_joined Server.lobby0
                [Server.brianConnect]).1.player_id_counter := by
  have h := new_player_joined_accepts Server.lobby0 Server.brianConnect (by decide)
  exact ⟨by decide, h.1, h.2.2.2.2.2⟩

/-- C6: the end-to-end connect scenario. Brian connects from address 7 to the
empty server: he is assigned id 0 and the queued replies are `ConnectAck(0)`
and `FullGameState([])` to address 7 plus a `NewPlayer` broadcast that, fanned
out over the resulting one-player roster, reaches nobody — every transport
send of that tick goes to address 7 only. Carl then connects from address 9:
he is assigned id 1, receives `ConnectAck(1)` and
`FullGameState([{0, "Brian"}])`, and the `NewPlayer{id: 1}` broadcast
resolves to exactly one send, to Brian's address 7. -/
theorem connect_two_clients_scenario :
    Server.tick1Packets
        = [{ destination := PacketDestination.Single 7,
             packet := ServerToClient.ConnectAck { id := 0 },
             delivery_type := DeliveryType.ReliableOrdered,
             stream_id := some GAME_STATE_STREAM },
           { destination := PacketDestination.Single 7,
             packet := ServerToClient.FullGameState { players := [] },
             delivery_type := DeliveryType.ReliableOrdered,
             stream_id := some GAME_STATE_STREAM },
           { destination := PacketDestination.BroadcastToAllExcept 7,
             packet := ServerToClient.NewPlayer { name := "Brian", id := 0 },
             delivery_type := DeliveryType.ReliableOrdered,
             stream_id := some GAME_STATE_STREAM }]
      ∧ (∀ pkt ∈ Server.tick1Packets,
          ∀ t ∈ Server.network_send
              (Server.lobby1.players.map (fun p => p.network_addr)) pkt,
            t.addr = 7)
      ∧ Server.tick2Packets
        = [{ destination := PacketDestination.Single 9,
             packet := ServerToClient.ConnectAck { id := 1 },
             delivery_type := DeliveryType.ReliableOrdered,
             stream_id := some GAME_STATE_STREAM },
           { destination := PacketDestination.Single 9,
             packet := ServerToClient.FullGameState
               { players := [{ name := "Brian", id := 0 }] },
             delivery_type := DeliveryType.ReliableOrdered,
             stream_id := some GAME_STATE_STREAM },
           { destination := PacketDestination.BroadcastToAllExcept 9,
             packet := ServerToClient.NewPlayer { name := "Carl", id := 1 },
             delivery_type := DeliveryType.ReliableOrdered,
             stream_id := some GAME_STATE_STREAM }]
      ∧ Server.network_send (Server.lobby2.players.map (fun p => p.network_addr))
          { destination := PacketDestination.BroadcastToAllExcept 9,
            packet := ServerToClient.NewPlayer { name := "Carl", id := 1 },
            delivery_type := DeliveryType.ReliableOrdered,
            stream_id := some GAME_STATE_STREAM }
        = [{ addr := 7,
             payload := ServerToClient.NewPlayer { name := "Carl", id := 1 },
             delivery_type := DeliveryType.ReliableOrdered }] := by
  refine ⟨by decide, by decide, by decide, by decide⟩

/-- Within the active half-window, the wraparound comparison agrees with the
plain order: `K` acks counter `c` whenever `c ≤ K` and they are close. -/
theorem seq_gte_eq_true_of_le (K c : Nat) (h1 : c ≤ K) (h2 : K - c ≤ 32766) :
    sequentially_greater_than_or_equal_to K c = true := by
  simp only [sequentially_greater_than_or_equal_to, max_half, Bool.or_eq_true,
    Bool.and_eq_true, decide_eq_true_eq]
  omega

/-- Within the active half-window, a counter strictly above the ack value is
not acknowledged. -/
theorem seq_gte_eq_false_of_gt (K c : Nat) (h1 : K < c) (h2 : c - K ≤ 32766) :
    sequentially_greater_than_or_equal_to K c = false := by
  apply Bool.eq_false_iff.mpr
  intro hc
  simp only [sequentially_greater_than_or_equal_to, max_half, Bool.or_eq_true,
    Bool.and_eq_true, decide_eq_true_eq] at hc
  omega

/-- Trimming a queue of consecutive counters `start, start + 1, …` with ack
value `K` drops exactly the entries with counters up to `K`, as long as the
whole window stays within half the counter space. -/
theorem clear_ack_eq_drop (K : Nat) (hK : K ≤ 32766) (l : List PlayerInputPacket) :
    ∀ start : Nat,
      (∀ i (h : i < l.length), (l.get ⟨i, h⟩).counter = start + i) →
      start + l.length ≤ 32767 →
      clear_acknowledged_inputs K l = l.drop (K + 1 - start) := by
  induction l with
  | nil =>
    intro start _ _
    simp [clear_acknowledged_inputs]
  | cons f rest ih =>
    intro start hc hrange
    have hlen : start + rest.length + 1 ≤ 32767 := by
      simpa [List.length_cons, Nat.add_assoc] using hrange
    have hf : f.counter = start := by simpa using hc 0 (Nat.succ_pos _)
    by_cases hstart : start ≤ K
    · have htrue : sequentially_greater_than_or_equal_to K f.counter = true := by
        rw [hf]
        exact seq_gte_eq_true_of_le K start hstart (by omega)
      have hrec := ih (start + 1)
        (fun i h => by
          have h2 := hc (i + 1) (Nat.succ_lt_succ h)
          have h3 : rest.get ⟨i, h⟩ = (f :: rest).get ⟨i + 1, Nat.succ_lt_succ h⟩ := rfl
          rw [h3, h2]
          omega)
        (by omega)
      have hdrop : K + 1 - start = (K - start) + 1 := by omega
      have hdrop2 : K + 1 - (start + 1) = K - start := by omega
      rw [hdrop2] at hrec
      simp only [clear_acknowledged_inputs, htrue, if_true]
      rw [hrec, hdrop, List.drop_succ_cons]
    · have hfalse : sequentially_greater_than_or_equal_to K f.counter = false := by
        rw [hf]
        exact seq_gte_eq_false_of_gt K start (by omega) (by omega)
      have hzero : K + 1 - start = 0 := by omega
      simp [clear_acknowledged_inputs, hfalse, hzero]

/-- C2: reconciliation on a `LobbyTick`. With the local queue holding the
inputs with counters `0, 1, …, N - 1` (`N ≤ 32767`) and a snapshot that acks
counter `K < N` and carries the server's authoritative position for the local
player (the start position with the first `K + 1` inputs applied), the
handler trims the queue to the inputs after counter `K`, sets the remote
player's displayed position directly from the snapshot, and sets the local
player's position to the authoritative value replayed through the remaining
queue — which equals continuously predicting all `N` inputs from the original
start position. -/
theorem reconciliation_convergence
    (mid rid : Nat) (hne : rid ≠ mid)
    (p0 prem rpos : Rat × Rat)
    (rh lh : List (Rat × Rat))
    (inputs : List PlayerInputPacket)
    (hc : ∀ i (h : i < inputs.length), (inputs.get ⟨i, h⟩).counter = i)
    (hN : inputs.length ≤ 32767)
    (K : Nat) (hK : K < inputs.length) :
    (Client.handle_lobby_tick
        { my_id := mid, players := [(rid, prem), (mid, p0)], unprocessed_inputs := inputs }
        { last_input_counter := K,
          players := [{ id := rid, pos := rpos, pos_history := rh },
                      { id := mid, pos := Client.replay p0 (inputs.take (K + 1)),
                        pos_history := lh }] }).unprocessed_inputs
        = inputs.drop (K + 1)
      ∧ Client.lookup_position
          (Client.handle_lobby_tick
            { my_id := mid, players := [(rid, prem), (mid, p0)], unprocessed_inputs := inputs }
            { last_input_counter := K,
              players := [{ id := rid, pos := rpos, pos_history := rh },
                          { id := mid, pos := Client.replay p0 (inputs.take (K + 1)),
                            pos_history := lh }] }).players rid
        = some rpos
      ∧ Client.lookup_position
          (Client.handle_lobby_tick
            { my_id := mid, players := [(rid, prem), (mid, p0)], unprocessed_inputs := inputs }
            { last_input_counter := K,
              players := [{ id := rid, pos := rpos, pos_history := rh },
                          { id := mid, pos := Client.replay p0 (inputs.take (K + 1)),
                            pos_history := lh }] }).players mid
        = some (Client.replay p0 inputs) := by
  have htrim : clear_acknowledged_inputs K inputs = inputs.drop (K + 1) := by
    have h := clear_ack_eq_drop K (by omega) inputs 0
      (fun i hi => by rw [hc i hi]; omega) (by omega)
    simpa using h
  have hfold : Client.replay (Client.replay p0 (inputs.take (K + 1))) (inputs.drop (K + 1))
      = Client.replay p0 inputs := by
    unfold Client.replay
    rw [← List.foldl_append, List.take_append_drop]
  refine ⟨?_, ?_, ?_⟩
  · simp [Client.handle_lobby_tick, htrim]
  · simp [Client.handle_lobby_tick, Client.set_position, Client.lookup_position,
      htrim, hne, Ne.symm hne]
  · simp [Client.handle_lobby_tick, Client.set_position, Client.lookup_position,
      htrim, hne, Ne.symm hne, hfold]

/-- Witness for C2: two queued inputs with counters 0 and 1, snapshot acking
counter 0 with the authoritative position after input 0. -/
theorem reconciliation_convergence_witness :
    ((0 : Nat) ≠ 1
      ∧ (∀ i (h : i < ([{ counter := 0, x := 1, y := 2 },
            { counter := 1, x := 3, y := 4 }] : List PlayerInputPacket).length),
          (([{ counter := 0, x := 1, y := 2 },
              { counter := 1, x := 3, y := 4 }] : List PlayerInputPacket).get
              ⟨i, h⟩).counter = i)
      ∧ ([{ counter := 0, x := 1, y := 2 },
          { counter := 1, x := 3, y := 4 }] : List PlayerInputPacket).length ≤ 32767
      ∧ 0 < ([{ counter := 0, x := 1, y := 2 },
          { counter := 1, x := 3, y := 4 }] : List PlayerInputPacket).length)
      ∧ Client.lookup_position
          (Client.handle_lobby_tick
            { my_id := 1, players := [(0, ((0 : Rat), (0 : Rat))), (1, (0, 0))],
              unprocessed_inputs := [{ counter := 0, x := 1, y := 2 },
                { counter := 1, x := 3, y := 4 }] }
            { last_input_counter := 0,
              players := [{ id := 0, pos := (7, 8), pos_history := [] },
                          { id := 1,
                            pos := Client.replay (0, 0)
                              (([{ counter := 0, x := 1, y := 2 },
                                 { counter := 1, x := 3, y := 4 }] :
                                  List PlayerInputPacket).take 1),
                            pos_history := [] }] }).players 1
        = some (Client.replay (0, 0)
            [{ counter := 0, x := 1, y := 2 }, { counter := 1, x := 3, y := 4 }]) :=
  ⟨⟨by decide, by decide, by decide, by decide⟩,
    (reconciliation_convergence 1 0 (by decide) (0, 0) (0, 0) (7, 8) [] []
      [{ counter := 0, x := 1, y := 2 }, { counter := 1, x := 3, y := 4 }]
      (by decide) (by decide) 0 (by decide)).2.2⟩

end Sus
